import Mathlib

/-!
Verification of the Apple splash-screen instruction resolution engine and the
CLI entry checks of the assets generator, as a shallow embedding of
`src/api/apple-icons-helper.ts` and `src/cli-start.ts`.

Partial records with optional fields (TypeScript `field?:`) are modelled with
`Option` fields; `undefined` is `none`.  The numeric padding proportion is
modelled as a rational number.
-/

set_option autoImplicit false

namespace AssetsGen

/-- Partial sharp resize options (`ResizeOptions`): the fields this codebase
reads or writes.  Each field is optional, mirroring the TypeScript record. -/
structure ResizeOptions where
  width : Option Nat := none
  height : Option Nat := none
  fit : Option String := none
  background : Option String := none
deriving DecidableEq, Repr

/-- Partial PNG output options (`PngOptions`), modelled with the two
compression fields the defaults populate. -/
structure PngOptions where
  compressionLevel : Option Nat := none
  quality : Option Nat := none
deriving DecidableEq, Repr

/-- Size descriptor (`AppleDeviceSize`), per the data model: declared width and
height plus optional per-size resize, dark-resize, padding and PNG options. -/
structure AppleDeviceSize where
  width : Nat
  height : Nat
  resizeOptions : Option ResizeOptions := none
  darkResizeOptions : Option ResizeOptions := none
  padding : Option ℚ := none
  png : Option PngOptions := none
deriving DecidableEq, Repr

/-- One resolved splash-screen variant (`SplashScreenData` in
`apple-icons-helper.ts`): `dark` is `none` when the descriptor carries no dark
resize override, `some false`/`some true` for the light/dark variants
otherwise. -/
structure SplashScreenData where
  size : AppleDeviceSize
  landscape : Bool
  dark : Option Bool := none
  resizeOptions : Option ResizeOptions := none
  padding : ℚ
  png : PngOptions
deriving DecidableEq, Repr

/-- Injected splash-screen naming function: `(landscape, size, dark) → string`. -/
abbrev SplashScreenNameFn := Bool → AppleDeviceSize → Option Bool → String

/-- Partial link-media options of the splash-screen configuration. -/
structure SplashLinkMediaOptions where
  log : Option Bool := none
  addMediaScreen : Option Bool := none
  basePath : Option String := none
  xhtml : Option Bool := none
deriving DecidableEq, Repr

/-- Fully resolved link-media options. -/
structure ResolvedLinkMediaOptions where
  log : Bool
  addMediaScreen : Bool
  basePath : String
  xhtml : Bool
deriving DecidableEq, Repr

/-- User-facing splash-screen configuration (`AppleSplashScreens`): every layer
is optional except the size list. -/
structure AppleSplashScreens where
  padding : Option ℚ := none
  resizeOptions : Option ResizeOptions := none
  darkResizeOptions : Option ResizeOptions := none
  linkMediaOptions : Option SplashLinkMediaOptions := none
  sizes : List AppleDeviceSize
  name : Option SplashScreenNameFn := none
  png : Option PngOptions := none

/-- Resolved splash-screen configuration (`ResolvedAppleSplashScreens`). -/
structure ResolvedAppleSplashScreens where
  padding : ℚ
  sizes : List AppleDeviceSize
  linkMediaOptions : ResolvedLinkMediaOptions
  name : SplashScreenNameFn
  png : PngOptions

/-- Modelled from the spec: the default injected naming function
(`defaultSplashScreenName` lives in `src/splash.ts`, which is not part of the
sources at hand).  The spec only requires a pure deterministic function of
`(landscape, size, dark)`; this one distinguishes orientation, color scheme and
dimensions. -/
def defaultSplashScreenName (landscape : Bool) (size : AppleDeviceSize) (dark : Option Bool) : String :=
  "apple-splash-" ++ (if landscape then "landscape" else "portrait")
    ++ (if dark = some true then "-dark-" else "-")
    ++ toString size.width ++ "x" ++ toString size.height ++ ".png"

/-- Modelled from the spec: `createResizeOptions` (from `src/api/defaults.ts`,
not part of the sources at hand) fully populates the background fill from the
global default constants — white for the light scheme, black for the dark
scheme — beneath the given partial resize options, field by field. -/
def createResizeOptions (dark : Bool) (options : ResizeOptions) : ResizeOptions :=
  { options with background := some (options.background.getD (if dark then "black" else "white")) }

/-- Modelled from the spec: `createPngCompressionOptions` (from
`src/api/defaults.ts`, not part of the sources at hand) fully populates PNG
compression options from built-in default constants, field by field; the spec
fixes the cascade shape but not the constants, represented here by 6 and 100. -/
def createPngCompressionOptions (options : PngOptions) : PngOptions :=
  { compressionLevel := some (options.compressionLevel.getD 6),
    quality := some (options.quality.getD 100) }

/-- Per-size back-fill step of `resolveAppleSplashScreens` (the loop at
`apple-icons-helper.ts:169-181`): each of the four per-size fields is filled
from the preset-resolved layer only when it is undefined, the whole record at a
time. -/
def resolveSize (padding : ℚ) (resizeOptions darkResizeOptions : ResizeOptions)
    (png : PngOptions) (s : AppleDeviceSize) : AppleDeviceSize :=
  { s with
    padding := some (s.padding.getD padding),
    png := some (s.png.getD png),
    resizeOptions := some (s.resizeOptions.getD resizeOptions),
    darkResizeOptions := some (s.darkResizeOptions.getD darkResizeOptions) }

/-- Embedding of `resolveAppleSplashScreens` (`apple-icons-helper.ts:149-203`):
destructures the configuration with its defaults, initializes the preset-level
option records, back-fills every size and resolves the link-media options.  The
in-place mutation of the caller's size objects is rendered as a map producing
the resolved size list. -/
def resolveAppleSplashScreens (useAppleSplashScreens : Option AppleSplashScreens) :
    Option ResolvedAppleSplashScreens :=
  useAppleSplashScreens.map fun u =>
    let padding := u.padding.getD (3/10)
    let resizeOptions := createResizeOptions false (u.resizeOptions.getD {})
    let darkResizeOptions := createResizeOptions true (u.darkResizeOptions.getD {})
    let png := createPngCompressionOptions (u.png.getD {})
    let lm := u.linkMediaOptions.getD {}
    { padding := padding,
      sizes := u.sizes.map (resolveSize padding resizeOptions darkResizeOptions png),
      linkMediaOptions :=
        { log := lm.log.getD true,
          addMediaScreen := lm.addMediaScreen.getD true,
          basePath := lm.basePath.getD "/",
          xhtml := lm.xhtml.getD false },
      name := u.name.getD defaultSplashScreenName,
      png := png }

/-- Landscape transposition of a descriptor for the light variant
(`apple-icons-helper.ts:30-45`): width and height are swapped, and the light
resize options — `{}` when absent — get their width and height swapped while
every other field is spread through; the dark resize options, padding and PNG
options are spread through unchanged. -/
def landscapeLightSize (s : AppleDeviceSize) : AppleDeviceSize :=
  let ro := s.resizeOptions.getD {}
  { s with
    width := s.height,
    height := s.width,
    resizeOptions := some { ro with width := ro.height, height := ro.width } }

/-- Expansion of one retained descriptor (the pushes at
`apple-icons-helper.ts:46-92`): portrait light, landscape light, and — when the
descriptor carries dark resize options — portrait dark and landscape dark.  The
`dark` flag is `some false` exactly when the dark resize options are present
(truthy in the source), `none` otherwise. -/
def expandSize (png : PngOptions) (s : AppleDeviceSize) : List SplashScreenData :=
  let darkFlag : Option Bool := if s.darkResizeOptions.isSome then some false else none
  let pad := s.padding.getD (3/10)
  let outPng := s.png.getD png
  let pl : SplashScreenData :=
    { size := s, landscape := false, dark := darkFlag,
      resizeOptions := s.resizeOptions, padding := pad, png := outPng }
  let ll : SplashScreenData :=
    { size := landscapeLightSize s, landscape := true, dark := darkFlag,
      resizeOptions := (landscapeLightSize s).resizeOptions, padding := pad, png := outPng }
  match s.darkResizeOptions with
  | none => [pl, ll]
  | some dro =>
    let ldo : ResizeOptions := { dro with width := dro.height, height := dro.width }
    let lds : AppleDeviceSize :=
      { s with
        width := s.height,
        height := s.width,
        resizeOptions := some ldo,
        darkResizeOptions := none }
    [pl, ll,
      { size := s, landscape := false, dark := some true,
        resizeOptions := some dro, padding := pad, png := outPng },
      { size := lds, landscape := true, dark := some true,
        resizeOptions := some ldo, padding := pad, png := outPng }]

/-- Functional rendering of the `sizesMap` (`Map<number, number>` keyed by
declared width, holding the last recorded height). -/
def updateMap (m : Nat → Option Nat) (k v : Nat) : Nat → Option Nat :=
  fun q => if q = k then some v else m q

/-- The dedup-and-expand reduce of `apple-icons-helper.ts:23-94`, with the
`sizesMap` threaded explicitly: a descriptor is skipped when the map currently
sends its declared width to its declared height; otherwise the map is updated
and the descriptor is expanded. -/
def splashScreensAux (png : PngOptions) : (Nat → Option Nat) → List AppleDeviceSize → List SplashScreenData
  | _, [] => []
  | m, s :: rest =>
    if m s.width = some s.height then splashScreensAux png m rest
    else expandSize png s ++ splashScreensAux png (updateMap m s.width s.height) rest

/-- The full variant expansion over a size list, starting from an empty map. -/
def splashScreens (sizes : List AppleDeviceSize) (png : PngOptions) : List SplashScreenData :=
  splashScreensAux png (fun _ => none) sizes

/-- The descriptors the reduce retains (mirrors the skip decisions of
`splashScreensAux` without performing the expansion). -/
def keptAux : (Nat → Option Nat) → List AppleDeviceSize → List AppleDeviceSize
  | _, [] => []
  | m, s :: rest =>
    if m s.width = some s.height then keptAux m rest
    else s :: keptAux (updateMap m s.width s.height) rest

/-- Retained descriptors of a full expansion. -/
def keptSizes (sizes : List AppleDeviceSize) : List AppleDeviceSize :=
  keptAux (fun _ => none) sizes

/-- Arguments of the deferred image producer: the resolution phase only records
them, the compositor call (`generateMaskableAsset`) happens when the producer
is eventually invoked. -/
structure MaskableAssetArgs where
  format : String
  size : AppleDeviceSize
  padding : ℚ
  resizeOptions : ResizeOptions
  outputOptions : PngOptions
deriving DecidableEq, Repr

/-- One instruction-set entry (`appleSplashScreen[url]` assignment at
`apple-icons-helper.ts:109-136`).  The `link`/`linkObject` fields are produced
by the separate HTML markup renderer (`src/api/html.ts`) and are outside the
fragment modelled here; `bufferArgs` records the deferred producer's inputs. -/
structure AssetEntry where
  name : String
  url : String
  width : Nat
  height : Nat
  mimeType : String
  bufferArgs : MaskableAssetArgs
deriving DecidableEq, Repr

/-- Category map keyed by URL, with JavaScript object-assignment semantics:
setting an existing key replaces its entry in place, a new key is appended. -/
def setEntry : List (String × AssetEntry) → String → AssetEntry → List (String × AssetEntry)
  | [], url, e => [(url, e)]
  | (u, e0) :: rest, url, e =>
    if u = url then (url, e) :: rest else (u, e0) :: setEntry rest url e

/-- The per-image instruction set: a URL-keyed entry map per asset category. -/
structure ImageAssetsInstructions where
  favicon : List (String × AssetEntry) := []
  transparent : List (String × AssetEntry) := []
  maskable : List (String × AssetEntry) := []
  apple : List (String × AssetEntry) := []
  appleSplashScreen : List (String × AssetEntry) := []
  windows : List (String × AssetEntry) := []
deriving DecidableEq, Repr

/-- The resolution context (`ImageAssets`) fields this helper reads. -/
structure ImageAssets where
  basePath : String
  includeId : Bool
deriving DecidableEq, Repr

/-- Construction of one asset entry from a resolved variant (the body of the
loop at `apple-icons-helper.ts:98-137`): name via the injected naming function,
URL from the base path, and the deferred producer's arguments, whose background
falls back to black for dark variants and white otherwise when the variant's
resize options do not set one. -/
def buildEntry (resolveName : SplashScreenNameFn) (basePath : String)
    (v : SplashScreenData) : AssetEntry :=
  let name := resolveName v.landscape v.size v.dark
  let ro := v.resizeOptions.getD {}
  { name := name,
    url := basePath ++ name,
    width := v.size.width,
    height := v.size.height,
    mimeType := "image/png",
    bufferArgs :=
      { format := "png",
        size := v.size,
        padding := v.padding,
        resizeOptions :=
          { ro with
            background :=
              some ((v.resizeOptions.bind ResizeOptions.background).getD
                (if v.dark = some true then "black" else "white")) },
        outputOptions := v.png } }

/-- One assignment `instructions.appleSplashScreen[url] = entry`. -/
def addSplashInstruction (resolveName : SplashScreenNameFn) (basePath : String)
    (instr : ImageAssetsInstructions) (v : SplashScreenData) : ImageAssetsInstructions :=
  let e := buildEntry resolveName basePath v
  { instr with appleSplashScreen := setEntry instr.appleSplashScreen e.url e }

/-- Embedding of `resolveAppleSplashScreensInstructions`
(`apple-icons-helper.ts:9-138`): resolves the configuration, returns the
instructions untouched when it is absent or its size list is empty, and
otherwise folds every expanded variant into the `appleSplashScreen` category.
The source mutates the instructions object; the embedding returns the updated
record. -/
def resolveAppleSplashScreensInstructions (imageAssets : ImageAssets)
    (instructions : ImageAssetsInstructions)
    (useAppleSplashScreens : Option AppleSplashScreens) : ImageAssetsInstructions :=
  match resolveAppleSplashScreens useAppleSplashScreens with
  | none => instructions
  | some a =>
    if a.sizes.length = 0 then instructions
    else
      (splashScreens a.sizes a.png).foldl
        (addSplashInstruction a.name imageAssets.basePath) instructions

/-- The loaded configuration fields the CLI `run` checks read
(`src/cli-start.ts`): the preset and the image list, both optional. -/
structure CliConfig where
  preset : Option String := none
  images : Option (List String) := none
deriving DecidableEq, Repr

/-- Embedding of the configuration checks of `run` (`cli-start.ts:41-90`):
after the configuration is loaded, a missing preset throws first; then a
non-empty command-line image list overrides the configured one, and a missing
or empty image list throws.  The `ok` value carries the images the resolution
phase then maps `resolveInstructions` over — resolution is reached only on the
`ok` path, so an error result means no resolution call was made. -/
def run (images : List String) (config : CliConfig) : Except String (List String) :=
  if config.preset.isNone then Except.error "No preset found"
  else
    let cfg := if images.length ≠ 0 then { config with images := some images } else config
    match cfg.images with
    | none => Except.error "No images provided"
    | some imgs =>
      if imgs.length = 0 then Except.error "No images provided" else Except.ok imgs

/-- Width-height transposition of a resize-options record, as the spec words
it: width and height swapped, every other field unchanged. -/
def swapWH (o : ResizeOptions) : ResizeOptions :=
  { o with width := o.height, height := o.width }

end AssetsGen

namespace AssetsGen

theorem splashScreensAux_eq_flatMap (png : PngOptions) (m : Nat → Option Nat)
    (sizes : List AppleDeviceSize) :
    splashScreensAux png m sizes = (keptAux m sizes).flatMap (expandSize png) := by
  induction sizes generalizing m with
  | nil => rfl
  | cons s rest ih =>
    by_cases h : m s.width = some s.height
    · simp [splashScreensAux, keptAux, h, ih]
    · simp [splashScreensAux, keptAux, h, ih]

theorem keptAux_sublist (m : Nat → Option Nat) (sizes : List AppleDeviceSize) :
    (keptAux m sizes).Sublist sizes := by
  induction sizes generalizing m with
  | nil => simp [keptAux]
  | cons s rest ih =>
    by_cases h : m s.width = some s.height
    · simpa [keptAux, h] using List.Sublist.cons s (ih m)
    · simpa [keptAux, h] using List.Sublist.cons₂ s (ih (updateMap m s.width s.height))

theorem splashScreens_eq_flatMap (sizes : List AppleDeviceSize) (png : PngOptions) :
    splashScreens sizes png = (keptSizes sizes).flatMap (expandSize png) :=
  splashScreensAux_eq_flatMap png (fun _ => none) sizes

theorem mem_splashScreens (sizes : List AppleDeviceSize) (png : PngOptions)
    (v : SplashScreenData) (hv : v ∈ splashScreens sizes png) :
    ∃ s ∈ sizes, v ∈ expandSize png s := by
  rw [splashScreens_eq_flatMap] at hv
  rcases List.mem_flatMap.mp hv with ⟨s, hs, hmem⟩
  exact ⟨s, (keptAux_sublist _ sizes).subset hs, hmem⟩

theorem expandSize_of_dark_none (png : PngOptions) (s : AppleDeviceSize)
    (h : s.darkResizeOptions = none) :
    expandSize png s =
      [{ size := s, landscape := false, dark := none,
         resizeOptions := s.resizeOptions, padding := s.padding.getD (3/10),
         png := s.png.getD png },
       { size := landscapeLightSize s, landscape := true, dark := none,
         resizeOptions := (landscapeLightSize s).resizeOptions,
         padding := s.padding.getD (3/10), png := s.png.getD png }] := by
  simp [expandSize, h]

theorem expandSize_of_dark_some (png : PngOptions) (s : AppleDeviceSize)
    (dro : ResizeOptions) (h : s.darkResizeOptions = some dro) :
    expandSize png s =
      [{ size := s, landscape := false, dark := some false,
         resizeOptions := s.resizeOptions, padding := s.padding.getD (3/10),
         png := s.png.getD png },
       { size := landscapeLightSize s, landscape := true, dark := some false,
         resizeOptions := (landscapeLightSize s).resizeOptions,
         padding := s.padding.getD (3/10), png := s.png.getD png },
       { size := s, landscape := false, dark := some true,
         resizeOptions := some dro, padding := s.padding.getD (3/10),
         png := s.png.getD png },
       { size :=
           { s with
             width := s.height,
             height := s.width,
             resizeOptions := some (swapWH dro),
             darkResizeOptions := none },
         landscape := true, dark := some true,
         resizeOptions := some (swapWH dro), padding := s.padding.getD (3/10),
         png := s.png.getD png }] := by
  simp [expandSize, h, swapWH]

theorem length_flatMap_expandSize (png : PngOptions) (l : List AppleDeviceSize) :
    (l.flatMap (expandSize png)).length =
      4 * l.countP (fun s => s.darkResizeOptions.isSome) +
      2 * l.countP (fun s => s.darkResizeOptions.isNone) := by
  induction l with
  | nil => simp
  | cons s rest ih =>
    rcases h : s.darkResizeOptions with _ | dro
    · simp only [List.flatMap_cons, List.length_append, ih, List.countP_cons, h,
        expandSize_of_dark_none png s h]
      simp
      omega
    · simp only [List.flatMap_cons, List.length_append, ih, List.countP_cons, h,
        expandSize_of_dark_some png s dro h]
      simp
      omega

theorem padding_of_mem_expandSize (png : PngOptions) (s : AppleDeviceSize)
    (v : SplashScreenData) (hv : v ∈ expandSize png s) :
    v.padding = s.padding.getD (3/10) := by
  rcases h : s.darkResizeOptions with _ | dro
  · rw [expandSize_of_dark_none png s h] at hv
    simp only [List.mem_cons, List.not_mem_nil, or_false] at hv
    rcases hv with rfl | rfl <;> rfl
  · rw [expandSize_of_dark_some png s dro h] at hv
    simp only [List.mem_cons, List.not_mem_nil, or_false] at hv
    rcases hv with rfl | rfl | rfl | rfl <;> rfl

theorem keptAux_filter_chain (sizes : List AppleDeviceSize) :
    ∀ (m : Nat → Option Nat) (w : Nat),
      List.Chain' (fun a b => a.height ≠ b.height)
        ((keptAux m sizes).filter (fun s => s.width == w)) ∧
      ∀ hd ∈ ((keptAux m sizes).filter (fun s => s.width == w)).head?,
        m w ≠ some hd.height := by
  induction sizes with
  | nil => intro m w; simp [keptAux]
  | cons s rest ih =>
    intro m w
    by_cases h : m s.width = some s.height
    · simpa [keptAux, h] using ih m w
    · simp only [keptAux, h, if_false]
      by_cases hw : s.width = w
      · subst hw
        have hm : updateMap m s.width s.height s.width = some s.height := by
          simp [updateMap]
        obtain ⟨hc, hh⟩ := ih (updateMap m s.width s.height) s.width
        rw [List.filter_cons_of_pos (by simp)]
        refine ⟨List.chain'_cons'.mpr ⟨?_, hc⟩, ?_⟩
        · intro b hb heq
          exact hh b hb (by rw [hm, heq])
        · intro hd hhd
          simp only [List.head?_cons, Option.mem_def, Option.some.injEq] at hhd
          subst hhd
          exact h
      · have hmw : updateMap m s.width s.height w = m w := by
          unfold updateMap
          exact if_neg (fun hc => hw hc.symm)
        obtain ⟨hc, hh⟩ := ih (updateMap m s.width s.height) w
        rw [List.filter_cons_of_neg (by simp [hw])]
        exact ⟨hc, fun hd hhd => hmw ▸ hh hd hhd⟩

/-- A 320x480 descriptor with no further attributes. -/
def s320a : AppleDeviceSize := { width := 320, height := 480 }

/-- A 320x568 descriptor: same declared width as `s320a`, different height. -/
def s320b : AppleDeviceSize := { width := 320, height := 568 }

/-- A second 320x480 descriptor, distinguished from `s320a` by its per-size
padding. -/
def s320c : AppleDeviceSize := { width := 320, height := 480, padding := some (1/10) }

/-- CLAIM C1 (counterexample).  The dedup is keyed by declared width alone,
remembering only the most recently expanded height per width, so a descriptor
whose `(width, height)` pair was already expanded is NOT skipped when a
descriptor with the same width but a different height was expanded in between:
on `[320x480, 320x568, 320x480 (padding 0.1)]` all three descriptors expand
(six variants), and the variants at indices 0 and 4 — originating from the
first and the third, distinct, descriptors — share the declared dimensions
`(320, 480)`. -/
theorem c1_counterexample :
    (splashScreens [s320a, s320b, s320c] {}).length = 6 ∧
    ((splashScreens [s320a, s320b, s320c] {})[0]?).map
      (fun v => (v.size.width, v.size.height)) = some (320, 480) ∧
    ((splashScreens [s320a, s320b, s320c] {})[4]?).map
      (fun v => (v.size.width, v.size.height)) = some (320, 480) ∧
    ((splashScreens [s320a, s320b, s320c] {})[0]?).map (fun v => v.size.padding)
      = some none ∧
    ((splashScreens [s320a, s320b, s320c] {})[4]?).map (fun v => v.size.padding)
      = some (some (1/10)) :=
  ⟨rfl, rfl, rfl, rfl, rfl⟩

/-- CLAIM C1 (amended).  The expansion emits, in input order, exactly the
groups of the descriptors the width-keyed map retains: a descriptor is skipped
precisely when the map currently sends its declared width to its declared
height, i.e. when the most recently expanded descriptor with the same declared
width had the same declared height.  Consequently the retained descriptors form
a sublist of the input and, among retained descriptors of any fixed declared
width, consecutive ones have different declared heights (adjacent
duplicate-dimension descriptors are suppressed); non-consecutive ones may
coincide. -/
theorem c1_dedup_policy :
    ∀ (sizes : List AppleDeviceSize) (png : PngOptions),
      splashScreens sizes png = (keptSizes sizes).flatMap (expandSize png) ∧
      (keptSizes sizes).Sublist sizes ∧
      ∀ w : Nat,
        List.Chain' (fun a b => a.height ≠ b.height)
          ((keptSizes sizes).filter (fun s => s.width == w)) := by
  intro sizes png
  exact ⟨splashScreens_eq_flatMap sizes png, keptAux_sublist _ sizes,
    fun w => (keptAux_filter_chain sizes (fun _ => none) w).1⟩

/-- CLAIM C2 (counterexample).  The variant count is not determined by the
number of distinct-by-declared-dimension descriptors: the list
`[320x480, 320x568, 320x480 (padding 0.1)]` has two distinct declared dimension
pairs and no dark resize overrides, so the claimed formula yields
`4 * 0 + 2 * 2 = 4` variants, but the expansion emits 6. -/
theorem c2_counterexample :
    (splashScreens [s320a, s320b, s320c] {}).length = 6 ∧
    [s320a, s320b, s320c].countP (fun s => s.darkResizeOptions.isSome) = 0 ∧
    ([s320a, s320b, s320c].map (fun s => (s.width, s.height))).dedup.length = 2 ∧
    (6 : Nat) ≠ 4 * 0 + 2 * 2 := by
  decide

/-- CLAIM C2 (amended).  The number of emitted splash-screen variants equals
4 times the number of RETAINED descriptors (per the width-keyed dedup of the
running map, not distinct-by-declared-dimension) that carry a dark resize
override plus 2 times the number of retained descriptors that carry none; and a
descriptor without a dark resize override expands to exactly two variants, both
with `dark` undefined. -/
theorem c2_variant_count :
    ∀ (sizes : List AppleDeviceSize) (png : PngOptions),
      (splashScreens sizes png).length =
        4 * (keptSizes sizes).countP (fun s => s.darkResizeOptions.isSome) +
        2 * (keptSizes sizes).countP (fun s => s.darkResizeOptions.isNone) ∧
      ∀ s : AppleDeviceSize, s.darkResizeOptions = none →
        (expandSize png s).length = 2 ∧
        (expandSize png s).countP (fun v => v.dark.isNone) = 2 := by
  intro sizes png
  constructor
  · rw [splashScreens_eq_flatMap]
    exact length_flatMap_expandSize png (keptSizes sizes)
  · intro s h
    rw [expandSize_of_dark_none png s h]
    simp [List.countP_cons]

/-- Witness for the amended C2 at a concrete descriptor without a dark resize
override. -/
theorem c2_variant_count_witness :
    s320a.darkResizeOptions = none ∧
    ((expandSize ({} : PngOptions) s320a).length = 2 ∧
      (expandSize ({} : PngOptions) s320a).countP (fun v => v.dark.isNone) = 2) :=
  ⟨rfl, (c2_variant_count [] {}).2 s320a rfl⟩

/-- A 320x480 descriptor whose per-size resize options set only the width. -/
def sC3 : AppleDeviceSize :=
  { width := 320, height := 480, resizeOptions := some { width := some 100 } }

/-- A splash-screen configuration whose preset-level resize options set only
the height, over the single size `sC3`. -/
def cfgC3 : AppleSplashScreens :=
  { resizeOptions := some { height := some 200 }, sizes := [sC3] }

/-- The configuration `cfgC3` after resolution, spelled out. -/
def resolvedC3 : ResolvedAppleSplashScreens :=
  { padding := 3/10,
    sizes :=
      [{ width := 320, height := 480,
         resizeOptions := some { width := some 100 },
         darkResizeOptions := some { background := some "black" },
         padding := some (3/10),
         png := some { compressionLevel := some 6, quality := some 100 } }],
    linkMediaOptions := { log := true, addMediaScreen := true, basePath := "/", xhtml := false },
    name := defaultSplashScreenName,
    png := { compressionLevel := some 6, quality := some 100 } }

/-- CLAIM C3 (counterexample).  The per-size layer is NOT resolved field by
field: a per-size resize-options record that sets only `width` is kept
wholesale, so it does not inherit `height` from the preset-level layer.  With
preset-level resize options `{height: 200}` and per-size resize options
`{width: 100}`, the resolved per-size record still has no height. -/
theorem c3_counterexample :
    (resolveAppleSplashScreens (some cfgC3)).map (fun r => r.sizes.map (fun s => s.resizeOptions))
      = some [some { width := some 100, height := none, fit := none, background := none }] ∧
    (resolveAppleSplashScreens (some cfgC3)).map
        (fun r => r.sizes.map (fun s => (s.resizeOptions.getD {}).height))
      ≠ some [some 200] :=
  ⟨rfl, by decide⟩

/-- CLAIM C3 (amended).  The cascade is field-by-field only between the
preset-level layer and the built-in global defaults (via `createResizeOptions`
and `createPngCompressionOptions`), while the per-size layer wins record by
record: padding cascades per-size over preset-level over the built-in 0.3 as a
scalar; for the light resize options, the dark resize options and the PNG
options, a per-size record, when present, is kept unchanged (inheriting
nothing), and only when absent does the size receive the preset-level record
merged field by field over the global defaults (background white/black for the
light/dark resize options, the built-in compression constants for PNG). -/
theorem c3_cascade :
    ∀ (u : AppleSplashScreens) (r : ResolvedAppleSplashScreens) (i : Nat) (s : AppleDeviceSize),
      resolveAppleSplashScreens (some u) = some r →
      u.sizes[i]? = some s →
      ∃ t, r.sizes[i]? = some t ∧
        t.padding = some (s.padding.getD (u.padding.getD (3/10))) ∧
        (∀ ro, s.resizeOptions = some ro → t.resizeOptions = some ro) ∧
        (s.resizeOptions = none →
          t.resizeOptions = some
            { width := (u.resizeOptions.getD {}).width,
              height := (u.resizeOptions.getD {}).height,
              fit := (u.resizeOptions.getD {}).fit,
              background := some ((u.resizeOptions.getD {}).background.getD "white") }) ∧
        (∀ dro, s.darkResizeOptions = some dro → t.darkResizeOptions = some dro) ∧
        (s.darkResizeOptions = none →
          t.darkResizeOptions = some
            { width := (u.darkResizeOptions.getD {}).width,
              height := (u.darkResizeOptions.getD {}).height,
              fit := (u.darkResizeOptions.getD {}).fit,
              background := some ((u.darkResizeOptions.getD {}).background.getD "black") }) ∧
        (∀ p, s.png = some p → t.png = some p) ∧
        (s.png = none →
          t.png = some
            { compressionLevel := some ((u.png.getD {}).compressionLevel.getD 6),
              quality := some ((u.png.getD {}).quality.getD 100) }) := by
  intro u r i s hr hs
  simp only [resolveAppleSplashScreens, Option.map_some', Option.some.injEq] at hr
  subst hr
  refine ⟨resolveSize (u.padding.getD (3/10))
      (createResizeOptions false (u.resizeOptions.getD {}))
      (createResizeOptions true (u.darkResizeOptions.getD {}))
      (createPngCompressionOptions (u.png.getD {})) s, ?_, rfl, ?_, ?_, ?_, ?_, ?_, ?_⟩
  · show (u.sizes.map _)[i]? = _
    rw [List.getElem?_map, hs]
    rfl
  · intro ro h
    simp [resolveSize, h]
  · intro h
    simp [resolveSize, h, createResizeOptions]
  · intro dro h
    simp [resolveSize, h]
  · intro h
    simp [resolveSize, h, createResizeOptions]
  · intro p h
    simp [resolveSize, h]
  · intro h
    simp [resolveSize, h, createPngCompressionOptions]

/-- Witness for the amended C3 at the concrete configuration `cfgC3`: the
per-size record that set only `width := 100` survives unchanged and the padding
cascades to the built-in 0.3. -/
theorem c3_cascade_witness :
    ∃ t, resolvedC3.sizes[0]? = some t ∧ t.padding = some (3/10) ∧
      t.resizeOptions = some { width := some 100 } := by
  obtain ⟨t, h1, h2, h3, _⟩ := c3_cascade cfgC3 resolvedC3 0 sC3 rfl rfl
  exact ⟨t, h1, h2, h3 { width := some 100 } rfl⟩

/-- The 640x1136 descriptor of the concrete spec scenario, with no per-size
attributes. -/
def s640 : AppleDeviceSize := { width := 640, height := 1136 }

/-- The splash-screen configuration of the concrete spec scenario: only the
size list is given, everything else defaults. -/
def cfg640 : AppleSplashScreens := { sizes := [s640] }

/-- Resolution context with base path `/`. -/
def ia0 : ImageAssets := { basePath := "/", includeId := false }

/-- CLAIM C4 (evaluation at the failing input).  On the single descriptor
640x1136 with no dark resize override, the code emits FOUR variants and four
instruction entries, not two: `resolveAppleSplashScreens` back-fills
`darkResizeOptions` onto every size unconditionally, so the dark pair is
produced as well.  The two entries the claim describes are present — portrait
640x1136 and landscape 1136x640, padding 0.3, background white — followed by
their dark counterparts with background black. -/
theorem c4_code_behavior :
    (resolveAppleSplashScreens (some cfg640)).map
        (fun r => (splashScreens r.sizes r.png).map (fun v => (v.landscape, v.dark)))
      = some [(false, some false), (true, some false), (false, some true), (true, some true)] ∧
    (resolveAppleSplashScreensInstructions ia0 {} (some cfg640)).appleSplashScreen.length = 4 ∧
    ((resolveAppleSplashScreensInstructions ia0 {} (some cfg640)).appleSplashScreen.map
        (fun p => (p.2.width, p.2.height, p.2.bufferArgs.resizeOptions.background)))
      = [(640, 1136, some "white"), (1136, 640, some "white"),
         (640, 1136, some "black"), (1136, 640, some "black")] ∧
    ((resolveAppleSplashScreensInstructions ia0 {} (some cfg640)).appleSplashScreen.map
        (fun p => p.2.bufferArgs.padding)) = [3/10, 3/10, 3/10, 3/10] :=
  ⟨rfl, rfl, rfl, rfl⟩

/-- CLAIM C5.  For every descriptor, the emitted landscape variant's declared
size is the portrait size with width and height swapped, and its resize options
are the corresponding portrait resize options — the light ones for the light
pair, the dark ones for the dark pair — with the width and height fields
swapped and every other field unchanged. -/
theorem c5_landscape_transposition :
    ∀ (png : PngOptions) (s : AppleDeviceSize),
      (∀ ro, s.resizeOptions = some ro →
        ∃ p q, (expandSize png s)[0]? = some p ∧ (expandSize png s)[1]? = some q ∧
          p.size.width = s.width ∧ p.size.height = s.height ∧
          p.resizeOptions = some ro ∧
          q.size.width = s.height ∧ q.size.height = s.width ∧
          q.resizeOptions = some (swapWH ro)) ∧
      (∀ dro, s.darkResizeOptions = some dro →
        ∃ p q, (expandSize png s)[2]? = some p ∧ (expandSize png s)[3]? = some q ∧
          p.size.width = s.width ∧ p.size.height = s.height ∧
          p.resizeOptions = some dro ∧
          q.size.width = s.height ∧ q.size.height = s.width ∧
          q.resizeOptions = some (swapWH dro)) := by
  intro png s
  constructor
  · intro ro h
    rcases hd : s.darkResizeOptions with _ | dro
    · rw [expandSize_of_dark_none png s hd]
      refine ⟨_, _, rfl, rfl, rfl, rfl, h, rfl, rfl, ?_⟩
      simp [landscapeLightSize, h, swapWH]
    · rw [expandSize_of_dark_some png s dro hd]
      refine ⟨_, _, rfl, rfl, rfl, rfl, h, rfl, rfl, ?_⟩
      simp [landscapeLightSize, h, swapWH]
  · intro dro h
    rw [expandSize_of_dark_some png s dro h]
    exact ⟨_, _, rfl, rfl, rfl, rfl, rfl, rfl, rfl, rfl⟩

/-- A descriptor with both light and dark per-size resize options, each setting
only some fields. -/
def sC5 : AppleDeviceSize :=
  { width := 320, height := 480,
    resizeOptions := some { width := some 10, fit := some "contain" },
    darkResizeOptions := some { height := some 20, background := some "gray" } }

/-- Witness for C5 at the concrete descriptor `sC5`, dark pair. -/
theorem c5_landscape_transposition_witness :
    ∃ p q, (expandSize ({} : PngOptions) sC5)[2]? = some p ∧
      (expandSize ({} : PngOptions) sC5)[3]? = some q ∧
      p.size.width = sC5.width ∧ p.size.height = sC5.height ∧
      p.resizeOptions = some { height := some 20, background := some "gray" } ∧
      q.size.width = sC5.height ∧ q.size.height = sC5.width ∧
      q.resizeOptions = some (swapWH { height := some 20, background := some "gray" }) :=
  (c5_landscape_transposition {} sC5).2 { height := some 20, background := some "gray" } rfl

/-- CLAIM C6.  The expansion emits, per retained descriptor, the variants in
the order portrait-light, landscape-light and — when the descriptor carries a
dark resize override — portrait-dark, landscape-dark, with the per-descriptor
groups concatenated in the input list's order. -/
theorem c6_emission_order :
    ∀ (sizes : List AppleDeviceSize) (png : PngOptions),
      (∃ kept : List AppleDeviceSize, List.Sublist kept sizes ∧
        splashScreens sizes png = kept.flatMap (expandSize png)) ∧
      ∀ s : AppleDeviceSize,
        (s.darkResizeOptions = none →
          ∃ p q, expandSize png s = [p, q] ∧
            p.landscape = false ∧ p.dark = none ∧
            q.landscape = true ∧ q.dark = none) ∧
        (∀ dro, s.darkResizeOptions = some dro →
          ∃ p q p2 q2, expandSize png s = [p, q, p2, q2] ∧
            p.landscape = false ∧ p.dark = some false ∧
            q.landscape = true ∧ q.dark = some false ∧
            p2.landscape = false ∧ p2.dark = some true ∧
            q2.landscape = true ∧ q2.dark = some true) := by
  intro sizes png
  refine ⟨⟨keptSizes sizes, keptAux_sublist _ sizes, splashScreens_eq_flatMap sizes png⟩, ?_⟩
  intro s
  constructor
  · intro h
    rw [expandSize_of_dark_none png s h]
    exact ⟨_, _, rfl, rfl, rfl, rfl, rfl⟩
  · intro dro h
    rw [expandSize_of_dark_some png s dro h]
    exact ⟨_, _, _, _, rfl, rfl, rfl, rfl, rfl, rfl, rfl, rfl, rfl⟩

/-- Witness for C6: the group pattern at a plain descriptor and at one with a
dark resize override. -/
theorem c6_emission_order_witness :
    (∃ p q, expandSize ({} : PngOptions) s640 = [p, q] ∧
      p.landscape = false ∧ p.dark = none ∧ q.landscape = true ∧ q.dark = none) ∧
    (∃ p q p2 q2,
      expandSize ({} : PngOptions) sC5 = [p, q, p2, q2] ∧
      p.landscape = false ∧ p.dark = some false ∧
      q.landscape = true ∧ q.dark = some false ∧
      p2.landscape = false ∧ p2.dark = some true ∧
      q2.landscape = true ∧ q2.dark = some true) :=
  ⟨((c6_emission_order [s640] {}).2 s640).1 rfl,
   ((c6_emission_order [sC5] {}).2 sC5).2 { height := some 20, background := some "gray" } rfl⟩

/-- CLAIM C7.  The resize options handed to the deferred image producer carry
the variant's own resize-option background when it is set; otherwise the
background defaults to black exactly when the variant is dark (`dark = true`)
and to white for every other variant (light or without color scheme). -/
theorem c7_background_fallback :
    ∀ (resolveName : SplashScreenNameFn) (basePath : String) (v : SplashScreenData),
      (∀ b, v.resizeOptions.bind ResizeOptions.background = some b →
        (buildEntry resolveName basePath v).bufferArgs.resizeOptions.background = some b) ∧
      (v.resizeOptions.bind ResizeOptions.background = none →
        (buildEntry resolveName basePath v).bufferArgs.resizeOptions.background =
          some (if v.dark = some true then "black" else "white")) := by
  intro rn bp v
  constructor
  · intro b h
    simp [buildEntry, h]
  · intro h
    simp [buildEntry, h]

/-- A dark variant whose resize options set an explicit background. -/
def vBg : SplashScreenData :=
  { size := s640, landscape := false, dark := some true,
    resizeOptions := some { background := some "red" }, padding := 3/10, png := {} }

/-- A dark variant whose resize options are absent. -/
def vNoBg : SplashScreenData :=
  { size := s640, landscape := false, dark := some true,
    resizeOptions := none, padding := 3/10, png := {} }

/-- Witness for C7: an explicit background survives, an absent one falls back
to black on a dark variant. -/
theorem c7_background_fallback_witness :
    (buildEntry defaultSplashScreenName "/" vBg).bufferArgs.resizeOptions.background
      = some "red" ∧
    (buildEntry defaultSplashScreenName "/" vNoBg).bufferArgs.resizeOptions.background
      = some "black" :=
  ⟨(c7_background_fallback defaultSplashScreenName "/" vBg).1 "red" rfl,
   (c7_background_fallback defaultSplashScreenName "/" vNoBg).2 rfl⟩

theorem keptAux_map {α : Type} (f : α → AppleDeviceSize) :
    ∀ (l : List α) (m : Nat → Option Nat),
      ∃ l' : List α, List.Sublist l' l ∧ keptAux m (l.map f) = l'.map f := by
  intro l
  induction l with
  | nil => exact fun m => ⟨[], List.Sublist.refl [], rfl⟩
  | cons a rest ih =>
    intro m
    by_cases h : m (f a).width = some (f a).height
    · obtain ⟨l', hsub, he⟩ := ih m
      exact ⟨l', List.Sublist.cons a hsub, by simp [keptAux, h, he]⟩
    · obtain ⟨l', hsub, he⟩ := ih (updateMap m (f a).width (f a).height)
      exact ⟨a :: l', List.Sublist.cons₂ a hsub, by simp [keptAux, h, he]⟩

/-- CLAIM C8.  Every variant emitted from a resolved splash-screen
configuration takes its padding from its OWN originating descriptor: the
emitted list decomposes into the per-descriptor groups of a sublist of the
configuration's size list, in order, and for every descriptor of the
configuration, every variant of its group has padding equal to that
descriptor's per-size padding when one is set, otherwise the configuration's
preset-level padding when one is configured, otherwise the built-in default
0.3. -/
theorem c8_padding_cascade :
    ∀ (u : AppleSplashScreens) (r : ResolvedAppleSplashScreens),
      resolveAppleSplashScreens (some u) = some r →
      ∃ kept : List AppleDeviceSize, List.Sublist kept u.sizes ∧
        splashScreens r.sizes r.png =
          kept.flatMap (fun s => expandSize r.png
            (resolveSize (u.padding.getD (3/10))
              (createResizeOptions false (u.resizeOptions.getD {}))
              (createResizeOptions true (u.darkResizeOptions.getD {}))
              (createPngCompressionOptions (u.png.getD {})) s)) ∧
        ∀ s ∈ u.sizes,
          ∀ v ∈ expandSize r.png
            (resolveSize (u.padding.getD (3/10))
              (createResizeOptions false (u.resizeOptions.getD {}))
              (createResizeOptions true (u.darkResizeOptions.getD {}))
              (createPngCompressionOptions (u.png.getD {})) s),
            v.padding = s.padding.getD (u.padding.getD (3/10)) := by
  intro u r hr
  simp only [resolveAppleSplashScreens, Option.map_some', Option.some.injEq] at hr
  subst hr
  obtain ⟨kept, hsub, hmap⟩ :=
    keptAux_map (resolveSize (u.padding.getD (3/10))
      (createResizeOptions false (u.resizeOptions.getD {}))
      (createResizeOptions true (u.darkResizeOptions.getD {}))
      (createPngCompressionOptions (u.png.getD {}))) u.sizes (fun _ => none)
  refine ⟨kept, hsub, ?_, ?_⟩
  · show splashScreens (u.sizes.map _) _ = _
    rw [splashScreens_eq_flatMap, keptSizes, hmap, List.flatMap_map]
  · intro s _ v hv
    rw [padding_of_mem_expandSize _ _ v hv]
    simp [resolveSize]

/-- The configuration `cfg640` after resolution, spelled out. -/
def resolved640 : ResolvedAppleSplashScreens :=
  { padding := 3/10,
    sizes :=
      [{ width := 640, height := 1136,
         resizeOptions := some { background := some "white" },
         darkResizeOptions := some { background := some "black" },
         padding := some (3/10),
         png := some { compressionLevel := some 6, quality := some 100 } }],
    linkMediaOptions := { log := true, addMediaScreen := true, basePath := "/", xhtml := false },
    name := defaultSplashScreenName,
    png := { compressionLevel := some 6, quality := some 100 } }

/-- The first variant emitted for `resolved640`. -/
def v640 : SplashScreenData :=
  { size :=
      { width := 640, height := 1136,
        resizeOptions := some { background := some "white" },
        darkResizeOptions := some { background := some "black" },
        padding := some (3/10),
        png := some { compressionLevel := some 6, quality := some 100 } },
    landscape := false, dark := some false,
    resizeOptions := some { background := some "white" },
    padding := 3/10,
    png := { compressionLevel := some 6, quality := some 100 } }

/-- Witness for C8 at the concrete configuration `cfg640`, its descriptor
`s640` and the first variant `v640` of that descriptor's group. -/
theorem c8_padding_cascade_witness :
    resolveAppleSplashScreens (some cfg640) = some resolved640 ∧
    s640 ∈ cfg640.sizes ∧
    v640 ∈ expandSize resolved640.png
      (resolveSize (cfg640.padding.getD (3/10))
        (createResizeOptions false (cfg640.resizeOptions.getD {}))
        (createResizeOptions true (cfg640.darkResizeOptions.getD {}))
        (createPngCompressionOptions (cfg640.png.getD {})) s640) ∧
    v640.padding = s640.padding.getD (cfg640.padding.getD (3/10)) := by
  obtain ⟨kept, hsub, hdec, hall⟩ := c8_padding_cascade cfg640 resolved640 rfl
  exact ⟨rfl, List.Mem.head _, List.Mem.head _,
    hall s640 (List.Mem.head _) v640 (List.Mem.head _)⟩

/-- CLAIM C9.  The CLI `run` checks its configuration before any instruction
resolution: a missing preset yields the `No preset found` error, a present
preset with neither command-line images nor configured images yields the
`No images provided` error, and a present preset together with at least one
image (from either side) reaches the resolution phase with a non-empty image
list and no configuration error. -/
theorem c9_config_checks :
    ∀ (images : List String) (config : CliConfig),
      (config.preset = none → run images config = Except.error "No preset found") ∧
      (config.preset.isSome → images = [] →
        (config.images = none ∨ config.images = some []) →
        run images config = Except.error "No images provided") ∧
      (config.preset.isSome →
        (images ≠ [] ∨ ∃ l, config.images = some l ∧ l ≠ []) →
        ∃ imgs, run images config = Except.ok imgs ∧ imgs ≠ []) := by
  intro images config
  obtain ⟨preset, imagesCfg⟩ := config
  refine ⟨?_, ?_, ?_⟩
  · intro h
    subst h
    simp [run]
  · intro hp hi hcfg
    subst hi
    obtain ⟨p, rfl⟩ := Option.isSome_iff_exists.mp hp
    rcases hcfg with h | h <;> simp_all [run]
  · intro hp hi
    obtain ⟨p, rfl⟩ := Option.isSome_iff_exists.mp hp
    rcases hi with h | ⟨l, rfl, hne⟩
    · exact ⟨images, by simp [run, h], h⟩
    · by_cases h0 : images = []
      · subst h0
        exact ⟨l, by simp [run, hne], hne⟩
      · exact ⟨images, by simp [run, h0], h0⟩

/-- Witness for C9: a missing preset fails, and a preset with one command-line
image succeeds. -/
theorem c9_config_checks_witness :
    run [] ({ preset := none } : CliConfig) = Except.error "No preset found" ∧
    ∃ imgs, run ["logo.svg"] ({ preset := some "minimal" } : CliConfig) = Except.ok imgs ∧
      imgs ≠ [] :=
  ⟨(c9_config_checks [] { preset := none }).1 rfl,
   (c9_config_checks ["logo.svg"] { preset := some "minimal" }).2.2 rfl
     (Or.inl (List.cons_ne_nil _ _))⟩

theorem foldl_addSplash_frame (l : List SplashScreenData) (rn : SplashScreenNameFn)
    (bp : String) (instr : ImageAssetsInstructions) :
    (l.foldl (addSplashInstruction rn bp) instr).favicon = instr.favicon ∧
    (l.foldl (addSplashInstruction rn bp) instr).transparent = instr.transparent ∧
    (l.foldl (addSplashInstruction rn bp) instr).maskable = instr.maskable ∧
    (l.foldl (addSplashInstruction rn bp) instr).apple = instr.apple ∧
    (l.foldl (addSplashInstruction rn bp) instr).windows = instr.windows := by
  induction l generalizing instr with
  | nil => exact ⟨rfl, rfl, rfl, rfl, rfl⟩
  | cons v rest ih =>
    simpa [addSplashInstruction] using ih (addSplashInstruction rn bp instr v)

/-- CLAIM C10.  Resolving splash-screen instructions touches only the
`appleSplashScreen` category: every other category's mapping is returned
unchanged; and when the splash-screen configuration argument is absent, or its
size list is empty, the instruction set is returned entirely unchanged. -/
theorem c10_frame :
    ∀ (ia : ImageAssets) (instr : ImageAssetsInstructions) (cfg : Option AppleSplashScreens),
      ((resolveAppleSplashScreensInstructions ia instr cfg).favicon = instr.favicon ∧
       (resolveAppleSplashScreensInstructions ia instr cfg).transparent = instr.transparent ∧
       (resolveAppleSplashScreensInstructions ia instr cfg).maskable = instr.maskable ∧
       (resolveAppleSplashScreensInstructions ia instr cfg).apple = instr.apple ∧
       (resolveAppleSplashScreensInstructions ia instr cfg).windows = instr.windows) ∧
      (cfg = none → resolveAppleSplashScreensInstructions ia instr cfg = instr) ∧
      (∀ u, cfg = some u → u.sizes = [] →
        resolveAppleSplashScreensInstructions ia instr cfg = instr) := by
  intro ia instr cfg
  rcases cfg with _ | u
  · exact ⟨⟨rfl, rfl, rfl, rfl, rfl⟩, fun _ => rfl, fun u h => Option.noConfusion h⟩
  · refine ⟨?_, fun h => Option.noConfusion h, fun u' h hs => ?_⟩
    · unfold resolveAppleSplashScreensInstructions
      simp only [resolveAppleSplashScreens, Option.map_some']
      split
      · exact ⟨rfl, rfl, rfl, rfl, rfl⟩
      · exact foldl_addSplash_frame _ _ _ instr
    · injection h with h
      subst h
      simp [resolveAppleSplashScreensInstructions, resolveAppleSplashScreens, hs]

/-- An empty splash-screen configuration: no sizes at all. -/
def cfgEmpty : AppleSplashScreens := { sizes := [] }

/-- Witness for C10: absent configuration and empty size list both leave the
instructions unchanged. -/
theorem c10_frame_witness :
    resolveAppleSplashScreensInstructions ia0 {} none = ({} : ImageAssetsInstructions) ∧
    resolveAppleSplashScreensInstructions ia0 {} (some cfgEmpty)
      = ({} : ImageAssetsInstructions) :=
  ⟨(c10_frame ia0 {} none).2.1 rfl,
   (c10_frame ia0 {} (some cfgEmpty)).2.2 cfgEmpty rfl rfl⟩

end AssetsGen
